import Mathlib

/-
Verification development for the lofi-girl ambient sound mixer
(src/script.js).  The Web Audio graph is shallowly embedded: audio
nodes are identified by natural numbers allocated from a counter,
node payloads record the parameters the source sets at construction
time, and connections are a list of (source node, destination port)
pairs.  Math.random draws are modelled as oracle inputs (lists or
streams of rationals), and JavaScript floating point arithmetic is
modelled exactly over the rationals.
-/

namespace LofiMixer

/-- Oscillator waveforms used by the source (createOscillator defaults
to sine when the code does not set a type). -/
inductive Wave
  | sine
  | square
  | sawtooth
deriving DecidableEq

/-- Biquad filter kinds used in the source. -/
inductive FilterKind
  | lowpass
  | bandpass
  | highpass
deriving DecidableEq

/-- The modulation tags appearing in the sound catalog of script.js:
ocean (slow-sweep), pulse (amplitude-pulse), flicker (fast-flicker),
rhythm (rhythmic-sweep). -/
inductive ModKind
  | ocean
  | pulse
  | flicker
  | rhythm
deriving DecidableEq

/-- The synthesis type tags of the catalog: noise, pink-noise,
impulse, oscillator, periodic.  Note script.js has no source-creation
branch for the periodic tag. -/
inductive SynthType
  | noise
  | pinkNoise
  | impulse
  | oscillator
  | periodic
deriving DecidableEq

/-- One entry of the sounds catalog (display metadata other than id is
dropped; it is opaque to the core). -/
structure Config where
  id : String
  type : SynthType
  filter : Option FilterKind
  modulation : Option ModKind
  freq : Option ℚ
  wave : Option Wave
  rate : Option ℕ
  baseFreq : Option ℚ
deriving DecidableEq

/-- The sounds catalog of script.js lines 2-13. -/
def sounds : List Config :=
  [ ⟨"rain", .noise, some .lowpass, none, none, none, none, none⟩
  , ⟨"ocean", .pinkNoise, some .lowpass, some .ocean, none, none, none, none⟩
  , ⟨"wind", .pinkNoise, some .bandpass, none, none, none, none, none⟩
  , ⟨"crickets", .oscillator, none, some .pulse, some 4000, none, none, none⟩
  , ⟨"drone", .oscillator, none, none, some 50, some .sawtooth, none, none⟩
  , ⟨"coffee", .noise, some .highpass, none, none, none, none, none⟩
  , ⟨"vinyl", .impulse, none, none, none, none, some 15, none⟩
  , ⟨"fire", .noise, some .lowpass, some .flicker, none, none, none, none⟩
  , ⟨"chime", .periodic, none, none, none, none, none, some 440⟩
  , ⟨"train", .pinkNoise, some .lowpass, some .rhythm, none, none, none, none⟩ ]

def rainCfg : Config := ⟨"rain", .noise, some .lowpass, none, none, none, none, none⟩
def cricketsCfg : Config := ⟨"crickets", .oscillator, none, some .pulse, some 4000, none, none, none⟩

/-- JavaScript `x || d` on an optional number: undefined and 0 are
falsy. -/
def jsOrQ (x : Option ℚ) (d : ℚ) : ℚ :=
  match x with
  | none => d
  | some v => if v = 0 then d else v

/-- JavaScript `x || d` on an optional natural number. -/
def jsOrN (x : Option ℕ) (d : ℕ) : ℕ :=
  match x with
  | none => d
  | some v => if v = 0 then d else v

/-- The rate passed to createImpulseBuffer by start():
`this.config.rate || 5` (script.js line 104). -/
def effectiveImpulseRate (c : Config) : ℕ := jsOrN c.rate 5

/-- Total pop count used by createImpulseBuffer: rate * 4
(script.js line 70). -/
def totalPops (rate : ℕ) : ℕ := rate * 4

/-- Payload of a buffer source node: which generator filled its
buffer.  For the impulse generator the effective rate is recorded. -/
inductive BufKind
  | white
  | pink
  | impulse (rate : ℕ)
deriving DecidableEq

/-- Audio node payloads, as configured at creation time by the
source. -/
inductive ANode
  | analyser
  | bufferSource (kind : BufKind)
  | oscillator (wave : Wave) (freq : ℚ)
  | gain (value : ℚ)
  | biquad (kind : FilterKind) (freq : ℚ) (q : ℚ)
deriving DecidableEq

/-- A connection destination: another node, or an AudioParam of a
node (a gain AudioParam or a frequency AudioParam). -/
inductive Port
  | node (id : ℕ)
  | gainParam (id : ℕ)
  | freqParam (id : ℕ)
deriving DecidableEq

/-- The state of the audio engine graph: an id allocator, the node
payloads, the connection list, and which sources were started and
stopped. -/
structure Ctx where
  nextId : ℕ
  nodes : List (ℕ × ANode)
  conns : List (ℕ × Port)
  started : List ℕ
  stoppedIds : List ℕ
deriving DecidableEq

def Ctx.createNode (ctx : Ctx) (a : ANode) : Ctx × ℕ :=
  ({ ctx with nextId := ctx.nextId + 1, nodes := ctx.nodes ++ [(ctx.nextId, a)] },
   ctx.nextId)

def Ctx.connect (ctx : Ctx) (src : ℕ) (dst : Port) : Ctx :=
  { ctx with conns := ctx.conns ++ [(src, dst)] }

/-- `x.connect(dst)` where x may be null: a null receiver is a crash
(TypeError), modelled as none. -/
def Ctx.connectOpt (ctx : Ctx) (src : Option ℕ) (dst : Port) : Option Ctx :=
  src.map fun s => ctx.connect s dst

/-- `x.disconnect()`: removes every outgoing connection of x. -/
def Ctx.disconnectAll (ctx : Ctx) (src : ℕ) : Ctx :=
  { ctx with conns := ctx.conns.filter fun c => c.1 ≠ src }

def Ctx.startSrc (ctx : Ctx) (id : ℕ) : Ctx :=
  { ctx with started := ctx.started ++ [id] }

def Ctx.stopSrc (ctx : Ctx) (id : ℕ) : Ctx :=
  { ctx with stoppedIds := ctx.stoppedIds ++ [id] }

/-- Overwrite the payload of an existing node (used for
`this.filter.frequency.value = 300` in the ocean branch). -/
def Ctx.setNode (ctx : Ctx) (id : ℕ) (a : ANode) : Ctx :=
  { ctx with nodes := ctx.nodes.map fun p => if p.1 = id then (id, a) else p }

def Ctx.lookup (ctx : Ctx) (id : ℕ) : Option ANode :=
  (ctx.nodes.find? fun p => p.1 = id).map Prod.snd

/-- The analyser created by initAudio is the mix bus; it is the first
node (id 0) of the context. -/
def analyserId : ℕ := 0

/-- Number of sources that have been started and not stopped. -/
def liveStartedCount (ctx : Ctx) : ℕ :=
  (ctx.started.filter fun i => !ctx.stoppedIds.contains i).length

/-- The mutable fields of a SoundNode object (script.js lines 79-88).
The gain ramp target and time constant of the last setTargetAtTime
call on this node output gain AudioParam are tracked here. -/
structure SN where
  config : Config
  gainNode : ℕ
  gainTarget : ℚ
  gainTau : ℚ
  source : Option ℕ
  filter : Option ℕ
  lfo : Option ℕ
  lfoGain : Option ℕ
  isPlaying : Bool
deriving DecidableEq

/-- The SoundNode constructor: creates the output gain node with
gain.value = 0.5.  Decimal constants are written as exact fractions
throughout this file so that the kernel can evaluate them. -/
def mkSoundNode (cfg : Config) (ctx : Ctx) : SN × Ctx :=
  let (ctx1, g) := ctx.createNode (.gain (1/2))
  ({ config := cfg, gainNode := g, gainTarget := 1/2, gainTau := 0,
     source := none, filter := none, lfo := none, lfoGain := none,
     isPlaying := false }, ctx1)

/-- Source creation, script.js lines 93-132.  For the oscillator type
with pulse modulation this is the first, speculative AM wiring: an
LFO and an AM gain are created and the LFO is started, then the
source is disconnected again.  For the periodic type no branch
matches and this.source stays null. -/
def createSourceStage (sn : SN) (ctx : Ctx) : SN × Ctx :=
  match sn.config.type with
  | .noise =>
      let (ctx1, s) := ctx.createNode (.bufferSource .white)
      ({ sn with source := some s }, ctx1)
  | .pinkNoise =>
      let (ctx1, s) := ctx.createNode (.bufferSource .pink)
      ({ sn with source := some s }, ctx1)
  | .impulse =>
      let (ctx1, s) :=
        ctx.createNode (.bufferSource (.impulse (effectiveImpulseRate sn.config)))
      ({ sn with source := some s }, ctx1)
  | .oscillator =>
      let (ctx1, s) :=
        ctx.createNode (.oscillator (sn.config.wave.getD .sine) (jsOrQ sn.config.freq 440))
      let sn1 := { sn with source := some s }
      if sn.config.modulation = some .pulse then
        let (ctx2, l) := ctx1.createNode (.oscillator .square 4)
        let (ctx3, lg) := ctx2.createNode (.gain 1)
        let (ctx4, am) := ctx3.createNode (.gain 0)
        let ctx5 := ctx4.connect s (.node am)
        let ctx6 := ctx5.connect l (.gainParam am)
        let ctx7 := ctx6.startSrc l
        let ctx8 := ctx7.disconnectAll s
        ({ sn1 with lfo := some l, lfoGain := some lg }, ctx8)
      else (sn1, ctx1)
  | .periodic => (sn, ctx)

/-- Filter chain and modulation logic, script.js lines 134-213.
Returns the updated node, context and outputNode.  none models the
TypeError crash of calling connect on a null source. -/
def filterStage (sn : SN) (ctx : Ctx) : Option (SN × Ctx × Option ℕ) :=
  match sn.config.filter with
  | some fk =>
      let fnode : ANode :=
        match fk with
        | .lowpass => .biquad .lowpass 400 1
        | .bandpass => .biquad .bandpass 500 1
        | .highpass => .biquad .highpass 800 1
      let (ctx1, f) := ctx.createNode fnode
      let sn1 := { sn with filter := some f }
      let step2 : SN × Ctx :=
        if sn.config.modulation = some .ocean then
          let ctxa := ctx1.setNode f (.biquad fk 300 1)
          let (ctxb, l) := ctxa.createNode (.oscillator .sine (1/10))
          let (ctxc, lg) := ctxb.createNode (.gain 300)
          let ctxd := (((ctxc.connect l (.node lg)).connect lg (.freqParam f)).startSrc l)
          ({ sn1 with lfo := some l, lfoGain := some lg }, ctxd)
        else if sn.config.modulation = some .flicker then
          let (ctxb, l) := ctx1.createNode (.oscillator .sine 15)
          let (ctxc, lg) := ctxb.createNode (.gain 100)
          let ctxd := (((ctxc.connect l (.node lg)).connect lg (.freqParam f)).startSrc l)
          ({ sn1 with lfo := some l, lfoGain := some lg }, ctxd)
        else if sn.config.modulation = some .rhythm then
          let (ctxb, l) := ctx1.createNode (.oscillator .sawtooth 4)
          let (ctxc, lg) := ctxb.createNode (.gain 200)
          let ctxd := (((ctxc.connect l (.node lg)).connect lg (.freqParam f)).startSrc l)
          ({ sn1 with lfo := some l, lfoGain := some lg }, ctxd)
        else (sn1, ctx1)
      let sn2 := step2.1
      let ctx2 := step2.2
      if sn.config.modulation = some .pulse ∧ sn.config.type = .oscillator then
        let (ctx3, am) := ctx2.createNode (.gain 1)
        match ctx3.connectOpt sn2.source (.node am) with
        | none => none
        | some ctx4 =>
          let (ctx5, l) := ctx4.createNode (.oscillator .square 4)
          let ctx6 := (((ctx5.connect l (.gainParam am)).startSrc l).connect am (.node f))
          some ({ sn2 with lfo := some l }, ctx6, some f)
      else
        match sn2.source with
        | none => none
        | some s => some (sn2, ctx2.connect s (.node f), some f)
  | none =>
      if sn.config.modulation = some .pulse ∧ sn.config.type = .oscillator then
        let (ctx3, am) := ctx.createNode (.gain 1)
        match ctx3.connectOpt sn.source (.node am) with
        | none => none
        | some ctx4 =>
          let (ctx5, l) := ctx4.createNode (.oscillator .square 4)
          let ctx6 := ((ctx5.connect l (.gainParam am)).startSrc l)
          some ({ sn with lfo := some l }, ctx6, some am)
      else some (sn, ctx, sn.source)

/-- The graph building body of start, script.js lines 93-217: source
creation, filter chain, connection of outputNode into the node output
gain, of that gain into the analyser (mix bus), and starting the
source. -/
def startBody (sn : SN) (ctx : Ctx) : Option (SN × Ctx) :=
  let (sn1, ctx1) := createSourceStage sn ctx
  match filterStage sn1 ctx1 with
  | none => none
  | some (sn2, ctx2, outputNode) =>
    match outputNode with
    | none => none
    | some out =>
      let ctx3 := (ctx2.connect out (.node sn2.gainNode)).connect sn2.gainNode (.node analyserId)
      match sn2.source with
      | none => none
      | some s => some (sn2, ctx3.startSrc s)

/-- SoundNode.start, script.js lines 90-219: a no-op when isPlaying
is already set, otherwise the graph building body followed by setting
isPlaying. -/
def startSN (sn : SN) (ctx : Ctx) : Option (SN × Ctx) :=
  if sn.isPlaying then some (sn, ctx)
  else (startBody sn ctx).map fun p => ({ p.1 with isPlaying := true }, p.2)

/-- SoundNode.stop, script.js lines 221-238: no-op unless playing,
ramps the output gain toward 0 with time constant 0.05, and schedules
the deferred teardown (the returned flag).  isPlaying stays true
until the teardown callback fires. -/
def stopSN (sn : SN) : SN × Bool :=
  if sn.isPlaying then ({ sn with gainTarget := 0, gainTau := 1/20 }, true)
  else (sn, false)

/-- The deferred teardown callback body (script.js lines 227-237): it
reads the current fields of the node, stops and disconnects the
source and the lfo, and clears isPlaying.  There is no activation
token: it does not check whether it has been superseded. -/
def teardownSN (sn : SN) (ctx : Ctx) : SN × Ctx :=
  let ctx1 :=
    match sn.source with
    | some s => (ctx.stopSrc s).disconnectAll s
    | none => ctx
  let ctx2 :=
    match sn.lfo with
    | some l => (ctx1.stopSrc l).disconnectAll l
    | none => ctx1
  ({ sn with isPlaying := false }, ctx2)

/-- SoundNode.setVolume, script.js lines 240-242: a single
setTargetAtTime(val, now, 0.1) with no validation of val. -/
def setVolumeSN (sn : SN) (v : ℚ) : SN :=
  { sn with gainTarget := v, gainTau := 1/10 }

/-- A world: the audio context graph, one SoundNode, and the number
of pending deferred teardown timers. -/
structure World where
  ctx : Ctx
  sn : SN
  pending : ℕ
deriving DecidableEq

/-- Context right after initAudio: the analyser (mix bus) exists with
id 0. -/
def initCtx : Ctx :=
  { nextId := 1, nodes := [(0, .analyser)], conns := [], started := [], stoppedIds := [] }

/-- A freshly constructed SoundNode for a profile, in a fresh
context. -/
def newWorld (cfg : Config) : World :=
  let p := mkSoundNode cfg initCtx
  { ctx := p.2, sn := p.1, pending := 0 }

def startW (w : World) : Option World :=
  (startSN w.sn w.ctx).map fun p => { w with sn := p.1, ctx := p.2 }

def stopW (w : World) : World :=
  let p := stopSN w.sn
  { w with sn := p.1, pending := w.pending + (if p.2 then 1 else 0) }

/-- Fire one pending deferred teardown timer (the 150 ms setTimeout
of stop). -/
def fireTeardown (w : World) : World :=
  match w.pending with
  | 0 => w
  | n + 1 =>
      let p := teardownSN w.sn w.ctx
      { ctx := p.2, sn := p.1, pending := n }

def setVolumeW (w : World) (v : ℚ) : World :=
  { w with sn := setVolumeSN w.sn v }

/-! Pink noise generator, script.js lines 43-62.  The Math.random
white samples are the input list; every buffer generation starts from
the all-zero filter state. -/

/-- The seven running variables b0..b6 of createPinkNoiseBuffer. -/
structure PinkState where
  b0 : ℚ
  b1 : ℚ
  b2 : ℚ
  b3 : ℚ
  b4 : ℚ
  b5 : ℚ
  b6 : ℚ
deriving DecidableEq

def pinkInit : PinkState := ⟨0, 0, 0, 0, 0, 0, 0⟩

/-- One loop iteration of createPinkNoiseBuffer: the six recursive
states are updated, the output uses the previous b6, and b6 is then
set to 0.115926 times the current white sample. -/
def pinkStep (s : PinkState) (w : ℚ) : PinkState × ℚ :=
  let c0 := (99886/100000) * s.b0 + w * (555179/10000000)
  let c1 := (99332/100000) * s.b1 + w * (750759/10000000)
  let c2 := (96900/100000) * s.b2 + w * (1538520/10000000)
  let c3 := (86650/100000) * s.b3 + w * (3104856/10000000)
  let c4 := (55000/100000) * s.b4 + w * (5329522/10000000)
  let c5 := -(7616/10000) * s.b5 - w * (168981/10000000)
  let out := (c0 + c1 + c2 + c3 + c4 + c5 + s.b6 + w * (5362/10000)) * (11/100)
  (⟨c0, c1, c2, c3, c4, c5, w * (115926/1000000)⟩, out)

def pinkGo (s : PinkState) : List ℚ → List ℚ
  | [] => []
  | w :: ws => (pinkStep s w).2 :: pinkGo (pinkStep s w).1 ws

/-- createPinkNoiseBuffer on a given white noise input list. -/
def createPinkNoiseBuffer (ws : List ℚ) : List ℚ := pinkGo pinkInit ws

/-- The six recursive filter states, as described by the claim. -/
structure SixState where
  b0 : ℚ
  b1 : ℚ
  b2 : ℚ
  b3 : ℚ
  b4 : ℚ
  b5 : ℚ
deriving DecidableEq

def sixUpdate (s : SixState) (w : ℚ) : SixState :=
  ⟨(99886/100000) * s.b0 + w * (555179/10000000),
   (99332/100000) * s.b1 + w * (750759/10000000),
   (96900/100000) * s.b2 + w * (1538520/10000000),
   (86650/100000) * s.b3 + w * (3104856/10000000),
   (55000/100000) * s.b4 + w * (5329522/10000000),
   -(7616/10000) * s.b5 - w * (168981/10000000)⟩

def claimPinkGo (s : SixState) : List ℚ → List ℚ
  | [] => []
  | w :: ws =>
      let s1 := sixUpdate s w
      (s1.b0 + s1.b1 + s1.b2 + s1.b3 + s1.b4 + s1.b5 + w * (5362/10000)) * (11/100)
        :: claimPinkGo s1 ws

/-- The per-sample formula exactly as the claim words it: output i
equals (sum of the six filter states + 0.5362 * w_i) * 0.11.  Written
from the claim for comparison against createPinkNoiseBuffer. -/
def claimPinkBuffer (ws : List ℚ) : List ℚ := claimPinkGo ⟨0, 0, 0, 0, 0, 0⟩ ws

def amendedPinkGo (s : SixState) (pw : ℚ) : List ℚ → List ℚ
  | [] => []
  | w :: ws =>
      let s1 := sixUpdate s w
      (s1.b0 + s1.b1 + s1.b2 + s1.b3 + s1.b4 + s1.b5 + pw * (115926/1000000) + w * (5362/10000)) * (11/100)
        :: amendedPinkGo s1 w ws

/-- The amended per-sample formula: output i equals (sum of the six
filter states + 0.115926 * w_(i-1) + 0.5362 * w_i) * 0.11, where the
previous white sample is taken as 0 for the first sample. -/
def amendedPinkBuffer (ws : List ℚ) : List ℚ := amendedPinkGo ⟨0, 0, 0, 0, 0, 0⟩ 0 ws

/-! Impulse train generator, script.js lines 65-76.  The stream rnd
supplies, for each pop, the two Math.random draws: the position draw
r (index = floor(r * bufferSize)) and the amplitude draw u (value =
(u * 2 - 1) * 0.8). -/

/-- The write list performed by the pop loop of createImpulseBuffer. -/
def impulseWrites (sampleRate rate : ℕ) (rnd : ℕ → ℚ × ℚ) : List (ℕ × ℚ) :=
  (List.range (totalPops rate)).map fun i =>
    ((⌊(rnd i).1 * ((sampleRate * 4 : ℕ) : ℚ)⌋).toNat, ((rnd i).2 * 2 - 1) * (4/5))

/-- Apply the pop writes in loop order; a later pop at the same index
overwrites an earlier one, matching data[idx] assignment. -/
def applyWrites (buf : List ℚ) : List (ℕ × ℚ) → List ℚ
  | [] => buf
  | (i, v) :: ws => applyWrites (buf.set i v) ws

/-- createImpulseBuffer: a 4 second buffer (sampleRate * 4 samples),
zero initialized, with rate * 4 random pops written into it. -/
def createImpulseBuffer (sampleRate rate : ℕ) (rnd : ℕ → ℚ × ℚ) : List ℚ :=
  applyWrites (List.replicate (sampleRate * 4) 0) (impulseWrites sampleRate rate rnd)

/-- Number of nonzero samples of a buffer. -/
def nonzeroCount (buf : List ℚ) : ℕ := (buf.filter fun x => x ≠ 0).length

/-! The UI toggle path, script.js lines 19-29 and 273-291.  The audio
engine is tracked as none (no AudioContext yet) or some s with s true
when the context is suspended.  A click always calls initAudio first,
then flips the active class, lazily constructs the SoundNode, and
starts or stops it; the slider value v is applied after a start. -/

/-- initAudio: create the context if absent (a context created before
any user gesture starts suspended under the autoplay policy), then
resume it if suspended. -/
def initAudioE (e : Option Bool) : Option Bool :=
  let e1 := match e with | none => some true | some s => some s
  match e1 with
  | some true => some false
  | x => x

structure App where
  engine : Option Bool
  world : Option World
  cardActive : Bool
deriving DecidableEq

/-- The card click handler for one profile: the model of toggle.  It
never checks readiness and never fails with an engine error; none
models only a crash inside start.  Returns the new app state and the
new active flag. -/
def toggleClick (cfg : Config) (v : ℚ) (app : App) : Option (App × Bool) :=
  let engine1 := initAudioE app.engine
  let active1 := !app.cardActive
  let w0 := match app.world with
    | some w => w
    | none => newWorld cfg
  if active1 then
    match startW w0 with
    | none => none
    | some w1 => some ({ engine := engine1, world := some (setVolumeW w1 v),
                         cardActive := active1 }, active1)
  else
    some ({ engine := engine1, world := some (stopW w0), cardActive := active1 }, active1)

/-- The app state before any user interaction: no AudioContext, no
SoundNode, card inactive. -/
def app0 : App := { engine := none, world := none, cardActive := false }

/-- The rapid activation race on profile rain: start, then stop, then
start again before the 150 ms teardown timer of the stop has fired,
then the timer fires. -/
def c1Run : Option World :=
  (startW (newWorld rainCfg)).bind fun w1 => (startW (stopW w1)).map fireTeardown

/-- What a start then stop then completed teardown actually leaves
behind for one profile: the node reads as not playing, its source and
lfo are stopped and fully disconnected, but its output gain stage is
still connected to the analyser (mix bus). -/
def c3Check (c : Config) : Bool :=
  (startW (newWorld c)).all fun w1 =>
    let w := fireTeardown (stopW w1)
    (w.sn.isPlaying == false) &&
    (match w.sn.source with
     | some s => w.ctx.stoppedIds.contains s && (w.ctx.conns.all fun cn => cn.1 != s)
     | none => false) &&
    (match w.sn.lfo with
     | some l => w.ctx.stoppedIds.contains l && (w.ctx.conns.all fun cn => cn.1 != l)
     | none => true) &&
    w.ctx.conns.contains (w.sn.gainNode, .node analyserId)

/-- The claimed LFO settings per modulation kind, written from the
claim table: (waveform, rate in Hz, depth in Hz). -/
def claimCutoffTable (m : ModKind) : Wave × ℚ × ℚ :=
  match m with
  | .ocean => (.sine, 1/10, 300)
  | .flicker => (.sine, 15, 100)
  | .rhythm => (.sawtooth, 4, 200)
  | .pulse => (.square, 4, 1)

/-- Whether a modulation kind targets the filter cutoff (per the
claim, all kinds except amplitude-pulse). -/
def targetsCutoff (m : ModKind) : Bool :=
  match m with
  | .ocean => true
  | .flicker => true
  | .rhythm => true
  | .pulse => false

/-- For a profile with a cutoff targeting modulation kind: start
succeeds and wires an LFO with the tabulated waveform and rate
through a coupling gain with the tabulated depth into the filter
frequency AudioParam, starts the LFO, and for ocean sets the filter
base frequency to 300. -/
def cutoffModCheck (c : Config) : Bool :=
  match c.modulation with
  | none => true
  | some m =>
    if targetsCutoff m then
      (startW (newWorld c)).isSome &&
      ((startW (newWorld c)).all fun w =>
        match w.sn.lfo, w.sn.lfoGain, w.sn.filter with
        | some l, some g, some f =>
            (w.ctx.lookup l == some (.oscillator (claimCutoffTable m).1 (claimCutoffTable m).2.1)) &&
            (w.ctx.lookup g == some (.gain (claimCutoffTable m).2.2)) &&
            w.ctx.conns.contains (l, .node g) &&
            w.ctx.conns.contains (g, .freqParam f) &&
            w.ctx.started.contains l &&
            (m != .ocean || w.ctx.lookup f == some (.biquad .lowpass 300 1))
        | _, _, _ => false)
    else true

/-- A SoundNode for rain whose isPlaying flag is set, as left by a
completed start. -/
def playingSNW : SN := { (newWorld rainCfg).sn with isPlaying := true }

/-- Concrete random oracle for the impulse generator witness: pop i
lands at index i of a 4 sample buffer, amplitude draw 3/4. -/
def c9rnd : ℕ → ℚ × ℚ := fun i => ((i : ℚ) / 4, 3 / 4)

/-- An impulse profile with no rate parameter. -/
def c10cfg : Config := ⟨"pops", .impulse, none, none, none, none, none, none⟩

/-! Theorems.  The four rational arithmetic primitives are marked
locally semireducible so that decider evaluation can run them; the
kernel itself checks such proofs by plain reduction. -/

section DecideRat

attribute [local semireducible] Rat.mul Rat.inv Rat.add Rat.sub

/-- C1: the claim says start then stop then start again on the same
profile id, with the second start issued before the deferred teardown
has run, leaves exactly one live source graph once the teardown delay
has elapsed, never zero while the sound is meant to be active.  The
code violates this: the second start is a no-op because isPlaying is
still true during Stopping, and the unguarded teardown callback of
the old stop then stops and disconnects the only source graph,
leaving zero live sources and isPlaying false although the sound is
meant to be active. -/
theorem c1_race_kills_fresh_activation :
    c1Run.map (fun w => (liveStartedCount w.ctx, w.sn.isPlaying)) = some (0, false) := by
  decide

/-- C2: the claim says at most one live source/modulator set exists
per SoundNode, and start never instantiates and starts a second LFO
or a second coupling gain path, including for amplitude-pulse.  The
code violates this on the crickets profile: one start call starts
three oscillators (the source plus two square LFOs), two of which are
modulators distinct from the source; the first LFO stays connected to
the first coupling gain AudioParam; and after stop plus teardown the
orphaned first LFO is still running. -/
theorem c2_pulse_builds_two_modulator_sets :
    ((startW (newWorld cricketsCfg)).map fun w =>
      (liveStartedCount w.ctx,
       (w.ctx.started.filter fun i => some i != w.sn.source).length,
       w.ctx.conns.contains (3, .gainParam 5),
       liveStartedCount (fireTeardown (stopW w)).ctx))
    = some (3, 2, true, 1) := by
  decide

/-- C3 counterexample: after start, stop and the completed teardown
on profile rain, the lifecycle flag is Idle (false) but the node
output gain stage is still connected to the mix bus and the filter is
still connected to the gain stage, contradicting the claim that zero
stages remain attached and all stages including the output gain are
disconnected. -/
theorem c3_gain_stage_remains_attached :
    ((startW (newWorld rainCfg)).map fun w1 =>
      let w := fireTeardown (stopW w1)
      (w.sn.isPlaying,
       w.ctx.conns.contains (w.sn.gainNode, .node analyserId),
       w.sn.filter.map fun f => w.ctx.conns.contains (f, .node w.sn.gainNode)))
    = some (false, true, some true) := by
  decide

/-- C3 amended: for every catalog profile on which start succeeds,
start then stop then the completed deferred teardown leaves the node
lifecycle flag Idle, and leaves the source and the modulator
oscillator stopped and with no outgoing connections, but the node
output gain stage remains connected to the mix bus. -/
theorem c3_teardown_partial_disconnect :
    sounds.all c3Check = true := by
  decide

/-- C5 counterexample: setVolume with the out-of-range value 2 is not
rejected: it mutates the gain state, moving the ramp target from 0.5
to 2, contradicting the claim that values outside the unit interval
are rejected synchronously with no mutation. -/
theorem c5_out_of_range_value_mutates :
    (setVolumeSN (newWorld rainCfg).sn 2).gainTarget = 2 ∧
    ¬ ((2 : ℚ) ≤ 1) ∧ (newWorld rainCfg).sn.gainTarget = 1/2 := by
  decide

/-- C5 amended: setVolume performs no range validation: for every
value v, in or out of the unit interval, and in every lifecycle
state, it sets the gain ramp target of the node to v with the 0.1
second smoothing time constant and changes nothing else. -/
theorem c5_setVolume_always_sets_target (sn : SN) (v : ℚ) :
    setVolumeSN sn v = { sn with gainTarget := v, gainTau := 1/10 } := rfl

/-- C6 counterexample: with no audio engine initialized and no prior
resume call, a toggle click does not fail with an engine-not-ready
error: it succeeds, reports the sound active, leaves the node
playing, and has itself implicitly created and resumed the engine. -/
theorem c6_toggle_succeeds_before_init :
    app0.engine = none ∧
    ((toggleClick rainCfg (1/2) app0).map fun r =>
      (r.2, r.1.engine, r.1.world.map fun w => w.sn.isPlaying))
    = some (true, some false, some true) := by
  decide

/-- C4 counterexample: on the concrete white noise input 1, 1 the
buffer of the code differs from the claimed six-state formula at
sample index 1, by exactly the b6 carry term 0.115926 times the
previous white sample times the 0.11 output scale, which the claimed
formula omits. -/
theorem c4_claim_formula_differs :
    createPinkNoiseBuffer [1, 1] ≠ claimPinkBuffer [1, 1] ∧
    (createPinkNoiseBuffer [1, 1]).getD 1 0
      = (claimPinkBuffer [1, 1]).getD 1 0 + (115926/1000000) * 1 * (11/100) := by
  decide

/-- C6 amended: toggle never requires a prior initialize call and has
no engine-not-ready failure: every toggle click first runs initAudio
itself, so starting from an uninitialized engine any toggle that
returns leaves the engine created and resumed and flips the active
flag as usual. -/
theorem c6_toggle_implicitly_initializes (cfg : Config) (v : ℚ) (app : App)
    (h : app.engine = none) :
    ((toggleClick cfg v app).all fun r =>
      r.1.engine == some false && r.2 == !app.cardActive) = true := by
  unfold toggleClick
  rw [h]
  cases hb : !app.cardActive
  · simp [initAudioE, hb]
  · cases hs : startW (match app.world with | some w => w | none => newWorld cfg)
    · simp [initAudioE, hb, hs]
    · simp [initAudioE, hb, hs]

/-- C6 amended witness at the untouched initial app state. -/
theorem c6_toggle_implicitly_initializes_witness :
    ((toggleClick rainCfg (1/2) app0).all fun r =>
      r.1.engine == some false && r.2 == !app0.cardActive) = true :=
  c6_toggle_implicitly_initializes rainCfg (1/2) app0 rfl

/-- C7: start is idempotent outside Idle: whenever the playing flag
is set (which in this code covers Playing and the whole Stopping
window, the start body being synchronous), start returns with no new
nodes, no new connections and no state change; consequently a second
start after any successful start is a no-op, so start twice from Idle
equals start once. -/
theorem c7_start_idempotent :
    (∀ sn ctx, sn.isPlaying = true → startSN sn ctx = some (sn, ctx)) ∧
    (∀ sn ctx r, startSN sn ctx = some r → startSN r.1 r.2 = some r) := by
  have h1 : ∀ sn ctx, sn.isPlaying = true → startSN sn ctx = some (sn, ctx) := by
    intro sn ctx h
    simp [startSN, h]
  refine ⟨h1, ?_⟩
  intro sn ctx r hr
  have hp : r.1.isPlaying = true := by
    unfold startSN at hr
    by_cases h : sn.isPlaying = true
    · rw [if_pos h] at hr
      cases hr
      exact h
    · rw [if_neg h] at hr
      cases hb : startBody sn ctx with
      | none => rw [hb] at hr; simp at hr
      | some p =>
          rw [hb] at hr
          simp only [Option.map_some] at hr
          cases hr
          rfl
  exact h1 r.1 r.2 hp

/-- C7 witness: on a concrete node with the playing flag set, start
returns the state unchanged. -/
theorem c7_start_idempotent_witness :
    startSN playingSNW initCtx = some (playingSNW, initCtx) :=
  c7_start_idempotent.1 playingSNW initCtx rfl

/-- C8: for every catalog profile whose modulation kind targets the
filter cutoff, start wires an LFO through a coupling gain into the
filter frequency AudioParam with exactly the tabulated settings:
slow-sweep (ocean) a sine LFO at 0.1 Hz with depth 300 around a 300
base, fast-flicker a sine LFO at 15 Hz with depth 100, rhythmic-sweep
a sawtooth LFO at 4 Hz with depth 200; the LFO is started. -/
theorem c8_cutoff_modulation_table :
    sounds.all cutoffModCheck = true := by
  decide

/-- C10: a profile of impulse type that omits its rate (or whose rate
is 0, both falsy in the JavaScript rate-or-5 default) gets an impulse
buffer built with the default rate 5 pops per second, hence 20 pop
positions over the 4 second buffer; the source node created by start
records exactly that buffer. -/
theorem c10_default_impulse_rate (cfg : Config)
    (ht : cfg.type = .impulse) (hr : cfg.rate = none ∨ cfg.rate = some 0) :
    effectiveImpulseRate cfg = 5 ∧ totalPops (effectiveImpulseRate cfg) = 20 ∧
    ((startW (newWorld cfg)).all fun w =>
      (w.sn.source.bind w.ctx.lookup) == some (.bufferSource (.impulse 5))) = true := by
  obtain ⟨nm, ty, fil, mo, fr, wv, rt, bf⟩ := cfg
  subst ht
  have h5 : effectiveImpulseRate ⟨nm, .impulse, fil, mo, fr, wv, rt, bf⟩ = 5 := by
    rcases hr with h | h <;> simp_all [effectiveImpulseRate, jsOrN]
  refine ⟨h5, by rw [h5]; rfl, ?_⟩
  rcases hr with h | h
  · have h2 : rt = none := h
    subst h2
    rcases fil with _ | fk <;> rcases mo with _ | m <;>
      (try cases fk) <;> (try cases m) <;> rfl
  · have h2 : rt = some 0 := h
    subst h2
    rcases fil with _ | fk <;> rcases mo with _ | m <;>
      (try cases fk) <;> (try cases m) <;> rfl

/-- C10 witness at a concrete impulse profile with no rate field. -/
theorem c10_default_impulse_rate_witness :
    effectiveImpulseRate c10cfg = 5 ∧ totalPops (effectiveImpulseRate c10cfg) = 20 :=
  ⟨(c10_default_impulse_rate c10cfg rfl (Or.inl rfl)).1,
   (c10_default_impulse_rate c10cfg rfl (Or.inl rfl)).2.1⟩

theorem pinkGo_eq_amended (ws : List ℚ) : ∀ (s : SixState) (pw : ℚ),
    pinkGo ⟨s.b0, s.b1, s.b2, s.b3, s.b4, s.b5, pw * (115926/1000000)⟩ ws
      = amendedPinkGo s pw ws := by
  induction ws with
  | nil => intro s pw; rfl
  | cons w ws ih =>
      intro s pw
      exact congrArg₂ (· :: ·) rfl (ih (sixUpdate s w) w)

/-- C4 amended: the code buffer satisfies, sample by sample, the
claimed recurrence extended with the seventh pure delay state: output
i equals (sum of the six filter states + 0.115926 times the previous
white sample + 0.5362 times the current white sample) times 0.11,
with state carried within one buffer and reset between buffers. -/
theorem c4_pink_matches_amended_formula (ws : List ℚ) :
    createPinkNoiseBuffer ws = amendedPinkBuffer ws := by
  have h := pinkGo_eq_amended ws ⟨0, 0, 0, 0, 0, 0⟩ 0
  simpa [createPinkNoiseBuffer, amendedPinkBuffer, pinkInit] using h

theorem applyWrites_length (ws : List (ℕ × ℚ)) : ∀ buf : List ℚ,
    (applyWrites buf ws).length = buf.length := by
  induction ws with
  | nil => intro buf; rfl
  | cons p ws ih =>
      intro buf
      obtain ⟨i, v⟩ := p
      simp [applyWrites, ih]

theorem getD_set_ne_zero (buf : List ℚ) (i j : ℕ) (v : ℚ) (h : i ≠ j) :
    (buf.set i v).getD j 0 = buf.getD j 0 := by
  simp [List.getD_eq_getElem?_getD, List.getElem?_set_ne h]

theorem nonzeroCount_cons (x : ℚ) (l : List ℚ) :
    nonzeroCount (x :: l) = (if x = 0 then 0 else 1) + nonzeroCount l := by
  by_cases h : x = 0
  · simp [nonzeroCount, List.filter_cons, h]
  · simp [nonzeroCount, List.filter_cons, h]
    omega

theorem nonzeroCount_replicate_zero (n : ℕ) :
    nonzeroCount (List.replicate n (0:ℚ)) = 0 := by
  induction n with
  | zero => rfl
  | succ n ih => simp [List.replicate_succ, nonzeroCount_cons, ih]

theorem nonzeroCount_set (buf : List ℚ) : ∀ (i : ℕ) (v : ℚ),
    i < buf.length → buf.getD i 0 = 0 → v ≠ 0 →
    nonzeroCount (buf.set i v) = nonzeroCount buf + 1 := by
  induction buf with
  | nil => intro i v hi _ _; simp at hi
  | cons x xs ih =>
      intro i v hi h0 hv
      cases i with
      | zero =>
          have hx : x = 0 := by simpa using h0
          subst hx
          simp [nonzeroCount_cons, hv]
          omega
      | succ i =>
          have hi2 : i < xs.length := by simpa using hi
          have h02 : xs.getD i 0 = 0 := by simpa using h0
          have hstep := ih i v hi2 h02 hv
          simp [nonzeroCount_cons, hstep]
          omega

theorem nonzeroCount_applyWrites : ∀ (ws : List (ℕ × ℚ)) (buf : List ℚ),
    (∀ p ∈ ws, p.1 < buf.length) →
    (∀ p ∈ ws, p.2 ≠ 0) →
    (ws.map Prod.fst).Nodup →
    (∀ p ∈ ws, buf.getD p.1 0 = 0) →
    nonzeroCount (applyWrites buf ws) = nonzeroCount buf + ws.length := by
  intro ws
  induction ws with
  | nil => intro buf _ _ _ _; simp [applyWrites]
  | cons p ws ih =>
      intro buf hlen hval hnd hz
      obtain ⟨i, v⟩ := p
      have hi : i < buf.length := hlen (i, v) (List.mem_cons_self _ _)
      have hv : v ≠ 0 := hval (i, v) (List.mem_cons_self _ _)
      have h0 : buf.getD i 0 = 0 := hz (i, v) (List.mem_cons_self _ _)
      rw [List.map_cons, List.nodup_cons] at hnd
      obtain ⟨hni, hnd2⟩ := hnd
      have hlen2 : ∀ p ∈ ws, p.1 < (buf.set i v).length := by
        intro q hq
        simpa [List.length_set] using hlen q (List.mem_cons_of_mem _ hq)
      have hval2 : ∀ p ∈ ws, p.2 ≠ 0 := fun q hq => hval q (List.mem_cons_of_mem _ hq)
      have hz2 : ∀ p ∈ ws, (buf.set i v).getD p.1 0 = 0 := by
        intro q hq
        have hqi : q.1 ≠ i := by
          intro he
          have hqm : q.1 ∈ ws.map Prod.fst := List.mem_map_of_mem Prod.fst hq
          rw [he] at hqm
          exact hni hqm
        rw [getD_set_ne_zero buf i q.1 v (fun he => hqi he.symm)]
        exact hz q (List.mem_cons_of_mem _ hq)
      have hrec := ih (buf.set i v) hlen2 hval2 hnd2 hz2
      have hone := nonzeroCount_set buf i v hi h0 hv
      calc nonzeroCount (applyWrites buf ((i, v) :: ws))
          = nonzeroCount (applyWrites (buf.set i v) ws) := rfl
        _ = nonzeroCount (buf.set i v) + ws.length := hrec
        _ = nonzeroCount buf + 1 + ws.length := by rw [hone]
        _ = nonzeroCount buf + ((i, v) :: ws).length := by simp [List.length_cons]; omega

theorem applyWrites_getD_notMem : ∀ (ws : List (ℕ × ℚ)) (buf : List ℚ) (j : ℕ),
    j ∉ ws.map Prod.fst → (applyWrites buf ws).getD j 0 = buf.getD j 0 := by
  intro ws
  induction ws with
  | nil => intro buf j _; rfl
  | cons p ws ih =>
      intro buf j hj
      obtain ⟨i, v⟩ := p
      rw [List.map_cons, List.mem_cons] at hj
      push_neg at hj
      have hstep : applyWrites buf ((i, v) :: ws) = applyWrites (buf.set i v) ws := rfl
      rw [hstep, ih (buf.set i v) j hj.2,
        getD_set_ne_zero buf i j v (fun he => hj.1 he.symm)]

theorem mem_applyWrites : ∀ (ws : List (ℕ × ℚ)) (buf : List ℚ) (x : ℚ),
    x ∈ applyWrites buf ws → x ∈ buf ∨ ∃ p ∈ ws, x = p.2 := by
  intro ws
  induction ws with
  | nil => intro buf x hx; exact Or.inl hx
  | cons p ws ih =>
      intro buf x hx
      obtain ⟨i, v⟩ := p
      have hx2 : x ∈ applyWrites (buf.set i v) ws := hx
      rcases ih (buf.set i v) x hx2 with h | ⟨q, hq, he⟩
      · rcases List.mem_or_eq_of_mem_set h with h2 | h2
        · exact Or.inl h2
        · exact Or.inr ⟨(i, v), List.mem_cons_self _ _, h2⟩
      · exact Or.inr ⟨q, List.mem_cons_of_mem _ hq, he⟩

/-- C9: for every rate and every run of the random oracle whose
position draws lie in the unit half open interval, whose amplitude
draws lie in the unit interval and are not exactly one half (a zero
amplitude pop), and whose chosen indices do not collide, the impulse
buffer spans sampleRate * 4 samples (4 seconds), has exactly rate * 4
nonzero samples, is zero at every position no pop was written to, and
every sample has magnitude at most 0.8. -/
theorem c9_impulse_buffer (sampleRate rate : ℕ) (rnd : ℕ → ℚ × ℚ)
    (hsr : 0 < sampleRate)
    (hpos : ∀ i, i < totalPops rate → 0 ≤ (rnd i).1 ∧ (rnd i).1 < 1)
    (hamp : ∀ i, i < totalPops rate → 0 ≤ (rnd i).2 ∧ (rnd i).2 ≤ 1)
    (hamp2 : ∀ i, i < totalPops rate → (rnd i).2 ≠ 1/2)
    (hnd : ((impulseWrites sampleRate rate rnd).map Prod.fst).Nodup) :
    (createImpulseBuffer sampleRate rate rnd).length = sampleRate * 4 ∧
    nonzeroCount (createImpulseBuffer sampleRate rate rnd) = totalPops rate ∧
    (∀ j, j ∉ (impulseWrites sampleRate rate rnd).map Prod.fst →
      (createImpulseBuffer sampleRate rate rnd).getD j 0 = 0) ∧
    (∀ x ∈ createImpulseBuffer sampleRate rate rnd, |x| ≤ 4/5) := by
  have hmem : ∀ p ∈ impulseWrites sampleRate rate rnd, ∃ i, i < totalPops rate ∧
      p = ((⌊(rnd i).1 * ((sampleRate * 4 : ℕ) : ℚ)⌋).toNat,
           ((rnd i).2 * 2 - 1) * (4/5)) := by
    intro p hp
    rw [impulseWrites, List.mem_map] at hp
    obtain ⟨i, hi, he⟩ := hp
    exact ⟨i, List.mem_range.mp hi, he.symm⟩
  have hsize : (0:ℚ) < ((sampleRate * 4 : ℕ) : ℚ) := by
    have : 0 < sampleRate * 4 := by omega
    exact_mod_cast this
  have hrep : ∀ j, (List.replicate (sampleRate * 4) (0:ℚ)).getD j 0 = 0 := by
    intro j
    rw [List.getD_eq_getElem?_getD]
    rcases h : (List.replicate (sampleRate * 4) (0:ℚ))[j]? with _ | x
    · rfl
    · have hx : x ∈ List.replicate (sampleRate * 4) (0:ℚ) := by
        exact List.getElem?_mem h
      simp [List.eq_of_mem_replicate hx]
  have hlen : ∀ p ∈ impulseWrites sampleRate rate rnd,
      p.1 < (List.replicate (sampleRate * 4) (0:ℚ)).length := by
    intro p hp
    obtain ⟨i, hi, he⟩ := hmem p hp
    subst he
    rw [List.length_replicate]
    have h1 := (hpos i hi).1
    have h2 := (hpos i hi).2
    have hmul : (rnd i).1 * ((sampleRate * 4 : ℕ) : ℚ) < ((sampleRate * 4 : ℕ) : ℚ) :=
      mul_lt_of_lt_one_left hsize h2
    have hfl : ⌊(rnd i).1 * ((sampleRate * 4 : ℕ) : ℚ)⌋ < ((sampleRate * 4 : ℕ) : ℤ) := by
      rw [Int.floor_lt]
      exact_mod_cast hmul
    exact (Int.toNat_lt' (by omega)).mpr hfl
  have hval : ∀ p ∈ impulseWrites sampleRate rate rnd, p.2 ≠ 0 := by
    intro p hp
    obtain ⟨i, hi, he⟩ := hmem p hp
    subst he
    intro hzero
    rcases mul_eq_zero.mp hzero with h | h
    · exact hamp2 i hi (by linarith)
    · norm_num at h
  have hz : ∀ p ∈ impulseWrites sampleRate rate rnd,
      (List.replicate (sampleRate * 4) (0:ℚ)).getD p.1 0 = 0 := fun p _ => hrep p.1
  refine ⟨?_, ?_, ?_, ?_⟩
  · rw [createImpulseBuffer, applyWrites_length, List.length_replicate]
  · rw [createImpulseBuffer,
      nonzeroCount_applyWrites (impulseWrites sampleRate rate rnd)
        (List.replicate (sampleRate * 4) 0) hlen hval hnd hz,
      nonzeroCount_replicate_zero]
    rw [impulseWrites, List.length_map, List.length_range]
    omega
  · intro j hj
    rw [createImpulseBuffer, applyWrites_getD_notMem _ _ _ hj]
    exact hrep j
  · intro x hx
    rcases mem_applyWrites _ _ _ hx with h | ⟨p, hp, he⟩
    · rw [List.eq_of_mem_replicate h]
      norm_num
    · obtain ⟨i, hi, hpe⟩ := hmem p hp
      subst hpe
      rw [he]
      have h1 := (hamp i hi).1
      have h2 := (hamp i hi).2
      rw [abs_mul]
      have ha : |(rnd i).2 * 2 - 1| ≤ 1 := abs_le.mpr ⟨by linarith, by linarith⟩
      have hb : |(4/5 : ℚ)| = 4/5 := by norm_num
      rw [hb]
      nlinarith [abs_nonneg ((rnd i).2 * 2 - 1)]

/-- C9 witness: a concrete run with sample rate 1 and rate 1: pop i
lands at index i, all four amplitude draws are 3/4. -/
theorem c9_impulse_buffer_witness :
    (createImpulseBuffer 1 1 c9rnd).length = 1 * 4 ∧
    nonzeroCount (createImpulseBuffer 1 1 c9rnd) = totalPops 1 :=
  ⟨(c9_impulse_buffer 1 1 c9rnd (by decide) (by decide) (by decide) (by decide)
      (by decide)).1,
   (c9_impulse_buffer 1 1 c9rnd (by decide) (by decide) (by decide) (by decide)
      (by decide)).2.1⟩

end DecideRat

end LofiMixer
